import Mathlib

/-!
Verification of the attribute-to-metric translation engine of
`smartthings_exporter` (file `smartthings_exporter.go`).

The shallow embedding below translates the classifier and the collection
cycle of the Go source into Lean:

* the dynamically typed raw attribute value (`interface\x7b\x7d`) becomes the
  tagged variant `RawValue` (`str` / `num` / `null`);
* `float64` values are modelled as exact rationals `ℚ` (no rounding occurs
  in any computation considered here);
* the value mappers `valueClear`, `valueOneOf`, `valueFloat` return
  `Except MapError ℚ`, where `MapError` records exactly the data the Go
  `fmt.Errorf` calls interpolate into the error message;
* the two-element Go option slices (`valOpenClosed` etc., only ever indexed
  at positions 0 and 1) become pairs of strings;
* the Go maps `metricsToDrop` and `metrics` become association lists; a Go
  map read returns the zero value (`""` resp. `nil`) on a missing key, which
  is mirrored by `toDrop` / `lookupMetric`;
* the per-attribute branch of `Collect` becomes `classify`, and the device
  loop becomes `collect`, threading the three counters, the emitted samples
  and the number of error-level log calls explicitly.
-/

/-- Raw attribute value as received from the upstream device source:
a string, a floating-point number, or absent/null. -/
inductive RawValue where
  | str (s : String)
  | num (x : ℚ)
  | null
deriving DecidableEq, Repr

/-- Payload of the error values produced by the value mappers, carrying
exactly what the corresponding Go `fmt.Errorf` call interpolates:
`nonString v` for "invalid non-string argument %v", `nonFloat v` for
"invalid non floating-point argument %v", and `invalidOption val o1 o2`
for "invalid option %q. Expected %q or %q". -/
inductive MapError where
  | nonString (v : RawValue)
  | nonFloat (v : RawValue)
  | invalidOption (val o1 o2 : String)
deriving DecidableEq, Repr

/-- Go: `valueClear` expects a string and returns 0 for "clear",
1 for anything else; non-string input is an error. -/
def valueClear (v : RawValue) : Except MapError ℚ :=
  match v with
  | RawValue.str val => if val = "clear" then Except.ok 0 else Except.ok 1
  | _ => Except.error (MapError.nonString v)

/-- Go: `valueOneOf` returns 0.0 if the value matches the first item of the
options array, 1.0 if it matches the second, and an error naming both
expected options otherwise; non-string input is an error.  The Go
two-element slice `options []string` (only ever read at indices 0 and 1)
is modelled as a pair. -/
def valueOneOf (v : RawValue) (options : String × String) : Except MapError ℚ :=
  match v with
  | RawValue.str val =>
    if val = options.1 then Except.ok 0
    else if val = options.2 then Except.ok 1
    else Except.error (MapError.invalidOption val options.1 options.2)
  | _ => Except.error (MapError.nonString v)

/-- Go: `valueFloat` returns 0.0 for the empty string, a float value
verbatim, and an error for anything else. -/
def valueFloat (v : RawValue) : Except MapError ℚ :=
  match v with
  | RawValue.str s =>
    if s = "" then Except.ok 0 else Except.error (MapError.nonFloat v)
  | RawValue.num x => Except.ok x
  | RawValue.null => Except.error (MapError.nonFloat v)

/-- Go: `valOpenClosed = []string\x7b"open", "closed"\x7d`. -/
def valOpenClosed : String × String := ("open", "closed")

/-- Go: `valLockedUnlocked = []string\x7b"locked", "unlocked"\x7d`. -/
def valLockedUnlocked : String × String := ("locked", "unlocked")

/-- Go: `valInactiveActive = []string\x7b"inactive", "active"\x7d`. -/
def valInactiveActive : String × String := ("inactive", "active")

/-- Go: `valAbsentPresent = []string\x7b"not present", "present"\x7d`. -/
def valAbsentPresent : String × String := ("not present", "present")

/-- Go: `valOffOn = []string\x7b"off", "on"\x7d`. -/
def valOffOn : String × String := ("off", "on")

/-- Go constant `namespace = "smartthings"` (renamed: `namespace` is a Lean
keyword). -/
def namespaceStr : String := "smartthings"

/-- Behaviour of `prometheus.BuildFQName`: joins the non-empty name parts
with underscores; empty `name` yields the empty string. -/
def buildFQName (ns subsystem name : String) : String :=
  if name = "" then ""
  else if ns ≠ "" ∧ subsystem ≠ "" then ns ++ "_" ++ subsystem ++ "_" ++ name
  else if ns ≠ "" then ns ++ "_" ++ name
  else if subsystem ≠ "" then subsystem ++ "_" ++ name
  else name

/-- Model of `prometheus.Desc` as built by `prometheus.NewDesc`: the fully
qualified metric name, the help text and the variable label names. -/
structure Desc where
  fqName : String
  help : String
  variableLabels : List String
deriving DecidableEq, Repr

/-- Go: `prometheus.NewDesc`. -/
def newDesc (fqName help : String) (variableLabels : List String) : Desc :=
  ⟨fqName, help, variableLabels⟩

/-- Go struct `metric`: a Prometheus description paired with a value
mapper `func(interface\x7b\x7d) (float64, error)`. -/
structure Metric where
  description : Desc
  valueMapper : RawValue → Except MapError ℚ

/-- Go map `metricsToDrop`: the attribute names the exporter purposely
drops, each mapped to the (irrelevant, non-empty) string "stuff here". -/
def metricsToDrop : List (String × String) := [
  ("DeviceWatch-DeviceStatus", "stuff here"),
  ("DeviceWatch-Enroll", "stuff here"),
  ("numberOfButtons", "stuff here"),
  ("color", "stuff here"),
  ("colorName", "stuff here"),
  ("button", "stuff here"),
  ("indicatorStatus", "stuff here"),
  ("supportedButtonValues", "stuff here"),
  ("bulbTemp", "stuff here"),
  ("status", "stuff here"),
  ("threeAxis", "stuff here"),
  ("acceleration", "stuff here"),
  ("door", "stuff here"),
  ("curZoneIsCycling", "stuff here"),
  ("curZoneCycleCount", "stuff here"),
  ("controllerOn", "stuff here"),
  ("rainDelay", "stuff here"),
  ("curZoneNumber", "stuff here"),
  ("curZoneWaterTime", "stuff here"),
  ("rainDelayStr", "stuff here"),
  ("hardwareModel", "stuff here"),
  ("hardwareDesc", "stuff here"),
  ("activeZoneCnt", "stuff here"),
  ("curZoneRunStatus", "stuff here"),
  ("standbyMode", "stuff here"),
  ("curZoneName", "stuff here"),
  ("curZoneDuration", "stuff here"),
  ("curZoneStartDate", "stuff here"),
  ("zoneSquareFeet", "stuff here"),
  ("efficiency", "stuff here"),
  ("indicashadeNametorStatus", "stuff here"),
  ("zoneName", "stuff here"),
  ("saturatedDepthOfWater", "stuff here"),
  ("zoneNumber", "stuff here"),
  ("watering", "stuff here"),
  ("zoneTotalDuration", "stuff here"),
  ("rootZoneDepth", "stuff here"),
  ("zoneWaterTime", "stuff here"),
  ("depthOfWater", "stuff here"),
  ("zoneElapsed", "stuff here"),
  ("slopeName", "stuff here"),
  ("cropName", "stuff here"),
  ("availableWater", "stuff here"),
  ("nozzleName", "stuff here"),
  ("maxRuntime", "stuff here"),
  ("zoneDuration", "stuff here"),
  ("zoneStartDate", "stuff here"),
  ("zoneCycleCount", "stuff here"),
  ("inStandby", "stuff here"),
  ("lastUpdatedDt", "stuff here"),
  ("scheduleType", "stuff here"),
  ("shadeName", "stuff here"),
  ("valve", "stuff here"),
  ("soilName", "stuff here"),
  ("image", "stuff here"),
  ("statusMessage", "stuff here"),
  ("mute", "stuff here"),
  ("hubactionMode", "stuff here"),
  ("switch2", "stuff here"),
  ("switch3", "stuff here"),
  ("switch4", "stuff here"),
  ("switch5", "stuff here"),
  ("switch6", "stuff here"),
  ("captureTime", "stuff here"),
  ("camera", "stuff here"),
  ("settings", "stuff here"),
  ("stream", "stuff here"),
  ("clip", "stuff here"),
  ("nightVision", "stuff here"),
  ("powerManagement", "stuff here"),
  ("desiredCameraState", "stuff here"),
  ("ruleId", "stuff here"),
  ("sound", "stuff here"),
  ("invertImage", "stuff here"),
  ("offline", "stuff here"),
  ("rssi", "stuff here"),
  ("active", "stuff here"),
  ("timeLastRefresh", "stuff here"),
  ("lqi", "stuff here"),
  ("clipStatus", "stuff here"),
  ("occupancy", "stuff here"),
  ("occupancyIconURL", "stuff here"),
  ("countdown", "stuff here"),
  ("batteryStatus", "stuff here"),
  ("tamper", "stuff here"),
  ("powerSource", "stuff here")]

/-- Go map read `metricsToDrop[k]`: a missing key yields the zero value
for strings, i.e. the empty string. -/
def toDrop (k : String) : String :=
  (List.lookup k metricsToDrop).getD ""

/-- Go map `metrics`: the MetricSpec registry. -/
def metrics : List (String × Metric) := [
  ("alarm", ⟨newDesc (buildFQName namespaceStr "" "alarm")
      "1 if the alarm is on." ["id", "name"],
      fun i => valueOneOf i valOffOn⟩),
  ("alarmState", ⟨newDesc (buildFQName namespaceStr "" "alarm_cleared")
      "0 if the alarm is clear." ["id", "name"], valueClear⟩),
  ("battery", ⟨newDesc (buildFQName namespaceStr "" "battery_percentage")
      "Percentage of battery remaining." ["id", "name"], valueFloat⟩),
  ("carbonMonoxide", ⟨newDesc (buildFQName namespaceStr "" "contact_closed")
      "1 if the contact is closed." ["id", "name"], valueClear⟩),
  ("contact", ⟨newDesc (buildFQName namespaceStr "" "contact_closed")
      "1 if the contact is closed." ["id", "name"],
      fun i => valueOneOf i valOpenClosed⟩),
  ("energy", ⟨newDesc (buildFQName namespaceStr "" "energy_usage_joules")
      "Energy usage in joules." ["id", "name"],
      fun i =>
        match valueFloat i with
        | Except.error err => Except.error err
        | Except.ok value => Except.ok (value * 3600000)⟩),
  ("humidity", ⟨newDesc (buildFQName namespaceStr "" "humidity_level")
      "Humidity Level." ["id", "name"], valueFloat⟩),
  ("fanSpeed", ⟨newDesc (buildFQName namespaceStr "" "fan_level")
      "Fan Level." ["id", "name"], valueFloat⟩),
  ("illuminance", ⟨newDesc (buildFQName namespaceStr "" "lux_level")
      "LUX Level." ["id", "name"], valueFloat⟩),
  ("level", ⟨newDesc (buildFQName namespaceStr "" "level_percent")
      "Level." ["id", "name"], valueFloat⟩),
  ("lock", ⟨newDesc (buildFQName namespaceStr "" "locked")
      "Is Locked." ["id", "name"],
      fun i => valueOneOf i valLockedUnlocked⟩),
  ("motion", ⟨newDesc (buildFQName namespaceStr "" "motion_detected")
      "1 if presence is detected." ["id", "name"],
      fun i => valueOneOf i valInactiveActive⟩),
  ("power", ⟨newDesc (buildFQName namespaceStr "" "power_usage_watts")
      "Current power usage in watts." ["id", "name"], valueFloat⟩),
  ("presence", ⟨newDesc (buildFQName namespaceStr "" "presence_detected")
      "1 if presence is detected." ["id", "name"],
      fun i => valueOneOf i valAbsentPresent⟩),
  ("pressure", ⟨newDesc (buildFQName namespaceStr "" "pressure_pascals")
      "Current pressure in pascals." ["id", "name"], valueFloat⟩),
  ("smoke", ⟨newDesc (buildFQName namespaceStr "" "smoke_detected")
      "1 if smoke is detected." ["id", "name"], valueClear⟩),
  ("switch", ⟨newDesc (buildFQName namespaceStr "" "switch_enabled")
      "1 if the switch is on." ["id", "name"],
      fun i => valueOneOf i valOffOn⟩),
  ("temperature", ⟨newDesc (buildFQName namespaceStr "" "temperature_fahrenheit")
      "Temperature in fahrenheit." ["id", "name"], valueFloat⟩),
  ("ultravioletIndex", ⟨newDesc (buildFQName namespaceStr "" "ultraviolet_index")
      "Ultraviolet Index." ["id", "name"], valueFloat⟩),
  ("speed", ⟨newDesc (buildFQName namespaceStr "" "speed_miles_per_hour")
      "Speed at Miles Per Hour." ["id", "name"], valueFloat⟩),
  ("heading", ⟨newDesc (buildFQName namespaceStr "" "heading")
      "heading." ["id", "name"], valueFloat⟩),
  ("longitude", ⟨newDesc (buildFQName namespaceStr "" "longitude")
      "longitude." ["id", "name"], valueFloat⟩),
  ("latitude", ⟨newDesc (buildFQName namespaceStr "" "latitude")
      "latitude." ["id", "name"], valueFloat⟩),
  ("odometer", ⟨newDesc (buildFQName namespaceStr "" "odometer")
      "odometer." ["id", "name"], valueFloat⟩),
  ("batteryRange", ⟨newDesc (buildFQName namespaceStr "" "battery_range")
      "Range in Miles for Battery." ["id", "name"], valueFloat⟩),
  ("healthStatus", ⟨newDesc (buildFQName namespaceStr "" "healthStatus")
      "Health Status." ["id", "name"], valueFloat⟩),
  ("hue", ⟨newDesc (buildFQName namespaceStr "" "hue")
      "Lighting Hue." ["id", "name"], valueFloat⟩),
  ("saturation", ⟨newDesc (buildFQName namespaceStr "" "saturation")
      "Lighting Saturation." ["id", "name"], valueFloat⟩),
  ("whiteLevel", ⟨newDesc (buildFQName namespaceStr "" "whiteLevel")
      "White Light Level." ["id", "name"], valueFloat⟩),
  ("checkInterval", ⟨newDesc (buildFQName namespaceStr "" "checkInterval")
      "Check Interval." ["id", "name"], valueFloat⟩),
  ("colorTemperature", ⟨newDesc (buildFQName namespaceStr "" "colorTemperature")
      "Color Temperature." ["id", "name"], valueFloat⟩)]

/-- Go map read `metrics[k]`: a missing key yields the zero value for a
pointer type, i.e. `nil`, modelled as `none`. -/
def lookupMetric (k : String) : Option Metric :=
  List.lookup k metrics

/-- Go, in `Collect`: `if val == nil \x7b val = "" \x7d` — a missing/null raw
value is normalized to the empty string before dispatch. -/
def normalizeRaw (v : RawValue) : RawValue :=
  match v with
  | RawValue.null => RawValue.str ""
  | v => v

/-- Outcome of classifying one raw attribute, per the per-attribute branch
of `Collect`. -/
inductive Outcome where
  | dropped
  | unknown
  | converted (metricName : String) (value : ℚ)
  | invalid (e : MapError)
deriving DecidableEq, Repr

/-- Per-attribute decision of `Collect`: normalize the raw value, drop if
the name is in `metricsToDrop` (map read ≠ ""), report unknown if the name
has no registry entry, otherwise run the registered value mapper and
produce either a converted sample value or an invalid outcome. -/
def classify (k : String) (rawVal : RawValue) : Outcome :=
  if toDrop k ≠ "" then Outcome.dropped
  else
    match lookupMetric k with
    | none => Outcome.unknown
    | some m =>
      match m.valueMapper (normalizeRaw rawVal) with
      | Except.ok value => Outcome.converted m.description.fqName value
      | Except.error e => Outcome.invalid e


/-- A device as consumed by `Collect`: stable id, display name, and the
attribute map (modelled as an association list; Go map iteration order is
arbitrary, and no property proved below depends on the order). -/
structure Device where
  id : String
  displayName : String
  attributes : List (String × RawValue)

/-- One emitted gauge sample, as built by
`prometheus.MustNewConstMetric(metric.description, GaugeValue, value, dev.ID, dev.DisplayName)`. -/
structure Sample where
  description : Desc
  value : ℚ
  id : String
  displayName : String
deriving DecidableEq, Repr

/-- The three process-lifetime counters `droppedMetric`, `unknownMetric`,
`invalidMetric`. -/
structure Counters where
  dropped : Nat
  unknown : Nat
  invalid : Nat
deriving DecidableEq, Repr

/-- Componentwise sum of counters. -/
def Counters.add (a b : Counters) : Counters :=
  ⟨a.dropped + b.dropped, a.unknown + b.unknown, a.invalid + b.invalid⟩

/-- State threaded through one collection cycle: the counters, the samples
sent to the channel so far, and the number of error-level log calls
(`plog.Errorf`) made so far. -/
structure CState where
  counters : Counters
  samples : List Sample
  errLogs : Nat
deriving DecidableEq, Repr

/-- Combination of two cycle states: counters add, sample lists append,
error-log counts add. -/
def CState.append (a b : CState) : CState :=
  ⟨a.counters.add b.counters, a.samples ++ b.samples, a.errLogs + b.errLogs⟩

/-- Body of the inner loop of `Collect` for one `(name, raw)` attribute
pair of device `dev`, mirroring the Go loop body: normalize a nil value to
"", drop if `metricsToDrop[name]` is non-empty, count unknown if the name
has no registry entry, otherwise run the value mapper and either emit one
sample or count the attribute invalid and log one error (`plog.Errorf`). -/
def stepAttr (dev : Device) (st : CState) (kv : String × RawValue) : CState :=
  if toDrop kv.1 ≠ "" then
    { st with counters := { st.counters with dropped := st.counters.dropped + 1 } }
  else
    match lookupMetric kv.1 with
    | none =>
      { st with counters := { st.counters with unknown := st.counters.unknown + 1 } }
    | some m =>
      match m.valueMapper (normalizeRaw kv.2) with
      | Except.ok value =>
        { st with samples := st.samples ++
            [⟨m.description, value, dev.id, dev.displayName⟩] }
      | Except.error _ =>
        { st with counters := { st.counters with invalid := st.counters.invalid + 1 },
                  errLogs := st.errLogs + 1 }

/-- The inner loop of `Collect` over all attributes of one device. -/
def collectDevice (st : CState) (dev : Device) : CState :=
  List.foldl (stepAttr dev) st dev.attributes

/-- The outer loop of `Collect` over all devices. -/
def collectDevices (st : CState) (devs : List Device) : CState :=
  List.foldl collectDevice st devs

/-- `Collect`, one full cycle: fetch the device list; on failure log one
error (`plog.Errorf`) and iterate over the empty (nil) device slice; on
success iterate over all devices.  `c` is the counter state at the start
of the cycle. -/
def collect (listing : Except Unit (List Device)) (c : Counters) : CState :=
  match listing with
  | Except.error _ => collectDevices { counters := c, samples := [], errLogs := 1 } []
  | Except.ok devs => collectDevices { counters := c, samples := [], errLogs := 0 } devs

/-- One attribute step commutes with prepending an already-accumulated
state: the counters only ever grow by increments and the sample list only
ever grows at the tail. -/
lemma stepAttr_append (dev : Device) (a b : CState) (kv : String × RawValue) :
    stepAttr dev (CState.append a b) kv = CState.append a (stepAttr dev b kv) := by
  unfold stepAttr
  by_cases h : toDrop kv.1 ≠ ""
  · simp [h, CState.append, Counters.add, Nat.add_assoc]
  · cases hm : lookupMetric kv.1 with
    | none => simp [h, hm, CState.append, Counters.add, Nat.add_assoc]
    | some m =>
      cases hv : m.valueMapper (normalizeRaw kv.2) with
      | ok value => simp [h, hm, hv, CState.append, Counters.add]
      | error e => simp [h, hm, hv, CState.append, Counters.add, Nat.add_assoc]

/-- The inner attribute fold commutes with prepending an accumulated state. -/
lemma foldl_stepAttr_append (dev : Device) (a : CState) (l : List (String × RawValue)) :
    ∀ b, List.foldl (stepAttr dev) (CState.append a b) l
      = CState.append a (List.foldl (stepAttr dev) b l) := by
  induction l with
  | nil => intro b; rfl
  | cons kv tl ih =>
    intro b
    rw [List.foldl_cons, List.foldl_cons, stepAttr_append, ih]

/-- Processing one device commutes with prepending an accumulated state. -/
lemma collectDevice_append (a b : CState) (dev : Device) :
    collectDevice (CState.append a b) dev = CState.append a (collectDevice b dev) :=
  foldl_stepAttr_append dev a dev.attributes b

/-- Processing a device list commutes with prepending an accumulated state. -/
lemma collectDevices_append (a : CState) (devs : List Device) :
    ∀ b, collectDevices (CState.append a b) devs
      = CState.append a (collectDevices b devs) := by
  induction devs with
  | nil => intro b; rfl
  | cons d tl ih =>
    intro b
    simp only [collectDevices, List.foldl_cons] at *
    rw [collectDevice_append, ih]

/-- Appending the all-zero state on the right is the identity. -/
lemma append_zeroState (a : CState) :
    CState.append a ⟨⟨0, 0, 0⟩, [], 0⟩ = a := by
  simp [CState.append, Counters.add]

/-- A cycle started at counters `c` is the cycle started at zero counters,
shifted by the initial state. -/
lemma collectDevices_decompose (c : Counters) (devs : List Device) :
    collectDevices ⟨c, [], 0⟩ devs
      = CState.append ⟨c, [], 0⟩ (collectDevices ⟨⟨0, 0, 0⟩, [], 0⟩ devs) := by
  have h := collectDevices_append ⟨c, [], 0⟩ devs ⟨⟨0, 0, 0⟩, [], 0⟩
  rwa [append_zeroState] at h

/-- Bridge: on a non-dropped, registered name, `classify` is the outcome of
the registered value mapper on the normalized raw value (instance for
"battery", whose mapper is `valueFloat`). -/
lemma classify_battery_bridge (v : RawValue) :
    classify "battery" v =
      (match valueFloat (normalizeRaw v) with
        | Except.ok value => Outcome.converted "smartthings_battery_percentage" value
        | Except.error e => Outcome.invalid e) := rfl

/-- Bridge for "energy", whose mapper scales `valueFloat` by 3600000. -/
lemma classify_energy_bridge (v : RawValue) :
    classify "energy" v =
      (match (match valueFloat (normalizeRaw v) with
          | Except.error err => Except.error err
          | Except.ok value => Except.ok (value * 3600000)) with
        | Except.ok value => Outcome.converted "smartthings_energy_usage_joules" value
        | Except.error e => Outcome.invalid e) := rfl

/-- Bridge for "contact", whose mapper is `valueOneOf` with
`valOpenClosed`. -/
lemma classify_contact_bridge (v : RawValue) :
    classify "contact" v =
      (match valueOneOf (normalizeRaw v) valOpenClosed with
        | Except.ok value => Outcome.converted "smartthings_contact_closed" value
        | Except.error e => Outcome.invalid e) := rfl

/-- Bridge for "carbonMonoxide", whose mapper is `valueClear`. -/
lemma classify_carbonMonoxide_bridge (v : RawValue) :
    classify "carbonMonoxide" v =
      (match valueClear (normalizeRaw v) with
        | Except.ok value => Outcome.converted "smartthings_contact_closed" value
        | Except.error e => Outcome.invalid e) := rfl

/-- Claim C1: for every attribute name in the DropSet and every raw value,
`classify` returns `Dropped`; the drop check is performed before, and has
priority over, the metric-registry lookup (no registry hypothesis is
needed, so a name in both tables is still dropped). -/
theorem classify_dropset_wins (k : String) (v : RawValue) (h : toDrop k ≠ "") :
    classify k v = Outcome.dropped := by
  unfold classify
  rw [if_pos h]

/-- Witness for C1 at the dropped attribute "color" with a raw value. -/
theorem classify_dropset_wins_witness :
    toDrop "color" ≠ "" ∧ classify "color" (RawValue.str "red") = Outcome.dropped :=
  ⟨by decide, classify_dropset_wins "color" (RawValue.str "red") (by decide)⟩

/-- Claim C2: for every attribute name that is neither in the DropSet nor a
key of the MetricSpec registry, and every raw value, `classify` returns
`Unknown`. -/
theorem classify_unregistered_unknown (k : String) (v : RawValue)
    (hd : toDrop k = "") (hm : lookupMetric k = none) :
    classify k v = Outcome.unknown := by
  unfold classify
  rw [if_neg (by simp [hd]), hm]

/-- Witness for C2 at the unregistered, non-dropped name "weirdAttr". -/
theorem classify_unregistered_unknown_witness :
    toDrop "weirdAttr" = "" ∧ lookupMetric "weirdAttr" = none ∧
      classify "weirdAttr" (RawValue.str "x") = Outcome.unknown :=
  ⟨by decide, rfl,
    classify_unregistered_unknown "weirdAttr" (RawValue.str "x") (by decide) rfl⟩

/-- Claim C3: the float pass-through mapper returns 0.0 for the empty
string, a numeric value verbatim, and an error for any other input; null
is normalized to "" before dispatch, so for "battery" the classifier
yields 0.0 on "" and null, the value verbatim on numbers, and a type
mismatch on any other string. -/
theorem valueFloat_battery_behaviour :
    (∀ x : ℚ, valueFloat (RawValue.num x) = Except.ok x) ∧
    valueFloat (RawValue.str "") = Except.ok 0 ∧
    (∀ s : String, s ≠ "" →
      valueFloat (RawValue.str s) = Except.error (MapError.nonFloat (RawValue.str s))) ∧
    valueFloat RawValue.null = Except.error (MapError.nonFloat RawValue.null) ∧
    normalizeRaw RawValue.null = RawValue.str "" ∧
    classify "battery" (RawValue.str "") =
      Outcome.converted "smartthings_battery_percentage" 0 ∧
    classify "battery" RawValue.null =
      Outcome.converted "smartthings_battery_percentage" 0 ∧
    classify "battery" (RawValue.num 55) =
      Outcome.converted "smartthings_battery_percentage" 55 ∧
    classify "battery" (RawValue.str "bogus") =
      Outcome.invalid (MapError.nonFloat (RawValue.str "bogus")) := by
  refine ⟨fun x => rfl, rfl, ?_, rfl, rfl, by decide, by decide,
    by decide, by decide⟩
  intro s hs
  simp [valueFloat, hs]

/-- Witness for C3: the non-empty, non-numeric string hypothesis is
discharged at "bogus". -/
theorem valueFloat_battery_behaviour_witness :
    valueFloat (RawValue.str "bogus") =
      Except.error (MapError.nonFloat (RawValue.str "bogus")) :=
  valueFloat_battery_behaviour.2.2.1 "bogus" (by decide)

/-- Claim C4: the "energy" mapper applies the float pass-through rule and
multiplies by the fixed constant 3600000, so every numeric value x maps to
`Converted(energy_usage_joules, x * 3600000)` — in particular 2 maps to
7200000 — and any float-rule failure maps to `Invalid` with the same
error. -/
theorem classify_energy_scaled :
    (∀ x : ℚ, classify "energy" (RawValue.num x) =
      Outcome.converted "smartthings_energy_usage_joules" (x * 3600000)) ∧
    classify "energy" (RawValue.num 2) =
      Outcome.converted "smartthings_energy_usage_joules" 7200000 ∧
    (∀ (v : RawValue) (e : MapError), valueFloat (normalizeRaw v) = Except.error e →
      classify "energy" v = Outcome.invalid e) := by
  refine ⟨fun x => rfl, ?_, ?_⟩
  · have h : classify "energy" (RawValue.num 2) =
        Outcome.converted "smartthings_energy_usage_joules" ((2 : ℚ) * 3600000) := rfl
    rw [h]
    norm_num
  · intro v e h
    rw [classify_energy_bridge, h]

/-- Witness for C4: the float-rule-failure hypothesis is discharged at the
raw value "bogus". -/
theorem classify_energy_scaled_witness :
    classify "energy" (RawValue.str "bogus") =
      Outcome.invalid (MapError.nonFloat (RawValue.str "bogus")) :=
  classify_energy_scaled.2.2 (RawValue.str "bogus")
    (MapError.nonFloat (RawValue.str "bogus")) rfl

/-- Claim C5: every binary enumerated pair mapper sends the first option to
0.0 and the second to 1.0, errors naming both options on any other string,
and errors with a type mismatch on non-string input; for the pair
("open", "closed") wired to "contact", "open" yields 0.0, "closed" yields
1.0, and "ajar" yields an unrecognized-option error. -/
theorem valueOneOf_contact_behaviour :
    (∀ o1 o2 : String, valueOneOf (RawValue.str o1) (o1, o2) = Except.ok 0) ∧
    (∀ o1 o2 : String, o2 ≠ o1 →
      valueOneOf (RawValue.str o2) (o1, o2) = Except.ok 1) ∧
    (∀ o1 o2 s : String, s ≠ o1 → s ≠ o2 →
      valueOneOf (RawValue.str s) (o1, o2) =
        Except.error (MapError.invalidOption s o1 o2)) ∧
    (∀ (opts : String × String) (x : ℚ), valueOneOf (RawValue.num x) opts =
      Except.error (MapError.nonString (RawValue.num x))) ∧
    (∀ opts : String × String, valueOneOf RawValue.null opts =
      Except.error (MapError.nonString RawValue.null)) ∧
    classify "contact" (RawValue.str "open") =
      Outcome.converted "smartthings_contact_closed" 0 ∧
    classify "contact" (RawValue.str "closed") =
      Outcome.converted "smartthings_contact_closed" 1 ∧
    classify "contact" (RawValue.str "ajar") =
      Outcome.invalid (MapError.invalidOption "ajar" "open" "closed") := by
  refine ⟨fun o1 o2 => by simp [valueOneOf], fun o1 o2 h => by simp [valueOneOf, h],
    fun o1 o2 s h1 h2 => by simp [valueOneOf, h1, h2],
    fun opts x => rfl, fun opts => rfl, by decide, by decide, by decide⟩

/-- Witness for C5: the distinct-options and unrecognized-string hypotheses
are discharged at the ("open", "closed") pair and the string "ajar". -/
theorem valueOneOf_contact_behaviour_witness :
    valueOneOf (RawValue.str "closed") ("open", "closed") = Except.ok 1 ∧
    valueOneOf (RawValue.str "ajar") ("open", "closed") =
      Except.error (MapError.invalidOption "ajar" "open" "closed") :=
  ⟨valueOneOf_contact_behaviour.2.1 "open" "closed" (by decide),
    valueOneOf_contact_behaviour.2.2.1 "open" "closed" "ajar" (by decide) (by decide)⟩

/-- Claim C6 counterexample: the binary clear/not-clear mapper does NOT
return an error on the empty string — it maps every string other than
"clear", including "", to 1.0. -/
theorem valueClear_empty_string_ok :
    valueClear (RawValue.str "") = Except.ok 1 := rfl

/-- Claim C6 (amended): every binary enumerated pair mapper with non-empty
option strings errors on the empty string; the clear/not-clear mapper
instead maps the empty string to 1.0 (it accepts every string), and only
the float rule maps the empty string to 0.0. -/
theorem empty_string_mappers :
    (∀ o1 o2 : String, o1 ≠ "" → o2 ≠ "" →
      valueOneOf (RawValue.str "") (o1, o2) =
        Except.error (MapError.invalidOption "" o1 o2)) ∧
    valueOneOf (RawValue.str "") valOpenClosed =
      Except.error (MapError.invalidOption "" "open" "closed") ∧
    valueOneOf (RawValue.str "") valLockedUnlocked =
      Except.error (MapError.invalidOption "" "locked" "unlocked") ∧
    valueOneOf (RawValue.str "") valInactiveActive =
      Except.error (MapError.invalidOption "" "inactive" "active") ∧
    valueOneOf (RawValue.str "") valAbsentPresent =
      Except.error (MapError.invalidOption "" "not present" "present") ∧
    valueOneOf (RawValue.str "") valOffOn =
      Except.error (MapError.invalidOption "" "off" "on") ∧
    valueClear (RawValue.str "") = Except.ok 1 ∧
    valueFloat (RawValue.str "") = Except.ok 0 := by
  refine ⟨?_, rfl, rfl, rfl, rfl, rfl, rfl, rfl⟩
  intro o1 o2 h1 h2
  simp [valueOneOf, Ne.symm h1, Ne.symm h2]

/-- Witness for C6 (amended): the non-empty-options hypotheses are
discharged at the ("open", "closed") pair. -/
theorem empty_string_mappers_witness :
    valueOneOf (RawValue.str "") ("open", "closed") =
      Except.error (MapError.invalidOption "" "open" "closed") :=
  empty_string_mappers.1 "open" "closed" (by decide) (by decide)

/-- Claim C7 counterexample: two distinct attribute names wired to the
same mapper produce the very same error value on the same bad raw value,
so the error value returned by a value mapper cannot carry the offending
attribute name. -/
theorem mapper_error_no_attribute_name :
    classify "battery" (RawValue.str "bogus") =
      Outcome.invalid (MapError.nonFloat (RawValue.str "bogus")) ∧
    classify "humidity" (RawValue.str "bogus") =
      Outcome.invalid (MapError.nonFloat (RawValue.str "bogus")) ∧
    "battery" ≠ "humidity" :=
  ⟨by decide, by decide, by decide⟩

/-- Claim C7 (amended): every error value returned by a value mapper
carries the offending raw value, and for the enumerated mapper also the
expected option pair; the attribute name is not part of the error value
(the caller's log line supplies it). -/
theorem mapper_error_payload :
    (∀ (v : RawValue) (e : MapError), valueClear v = Except.error e →
      e = MapError.nonString v) ∧
    (∀ (v : RawValue) (opts : String × String) (e : MapError),
      valueOneOf v opts = Except.error e →
      e = MapError.nonString v ∨
        ∃ s, v = RawValue.str s ∧ e = MapError.invalidOption s opts.1 opts.2) ∧
    (∀ (v : RawValue) (e : MapError), valueFloat v = Except.error e →
      e = MapError.nonFloat v) := by
  refine ⟨?_, ?_, ?_⟩
  · intro v e h
    cases v with
    | str s => by_cases hs : s = "clear" <;> simp [valueClear, hs] at h
    | num x =>
      simp [valueClear] at h
      exact h.symm
    | null =>
      simp [valueClear] at h
      exact h.symm
  · intro v opts e h
    cases v with
    | str s =>
      by_cases h1 : s = opts.1
      · simp [valueOneOf, h1] at h
      · by_cases h2 : s = opts.2
        · subst h2
          simp [valueOneOf, h1] at h
        · right
          simp [valueOneOf, h1, h2] at h
          exact ⟨s, rfl, h.symm⟩
    | num x =>
      left
      simp [valueOneOf] at h
      exact h.symm
    | null =>
      left
      simp [valueOneOf] at h
      exact h.symm
  · intro v e h
    cases v with
    | str s =>
      by_cases hs : s = ""
      · simp [valueFloat, hs] at h
      · simp [valueFloat, hs] at h
        exact h.symm
    | num x => simp [valueFloat] at h
    | null =>
      simp [valueFloat] at h
      exact h.symm

/-- Witness for C7 (amended): the error hypothesis is discharged at the
null raw value under the float rule. -/
theorem mapper_error_payload_witness :
    valueFloat RawValue.null = Except.error (MapError.nonFloat RawValue.null) ∧
    MapError.nonFloat RawValue.null = MapError.nonFloat RawValue.null :=
  ⟨rfl, mapper_error_payload.2.2 RawValue.null (MapError.nonFloat RawValue.null) rfl⟩

/-- Claim C8: when the device-listing call fails, the cycle emits zero
samples, leaves the counters unchanged, and logs exactly one diagnostic
error; the cycle function is total, so the failure does not propagate
beyond the cycle boundary. -/
theorem collect_listing_failure (c : Counters) :
    collect (Except.error ()) c = { counters := c, samples := [], errLogs := 1 } := rfl

/-- Claim C9: running the cycle twice on an identical device snapshot
yields identical sample lists, while the dropped/unknown/invalid counters
accumulate: both runs add the same per-cycle delta instead of repeating
the first run's values. -/
theorem collect_idempotent_counters_accumulate (devs : List Device) (c0 : Counters) :
    (collect (Except.ok devs) (collect (Except.ok devs) c0).counters).samples
        = (collect (Except.ok devs) c0).samples ∧
    ∃ d : Counters,
      (collect (Except.ok devs) c0).counters = c0.add d ∧
      (collect (Except.ok devs) (collect (Except.ok devs) c0).counters).counters
        = (collect (Except.ok devs) c0).counters.add d := by
  have hbase : ∀ c : Counters, collect (Except.ok devs) c
      = CState.append ⟨c, [], 0⟩ (collectDevices ⟨⟨0, 0, 0⟩, [], 0⟩ devs) :=
    fun c => collectDevices_decompose c devs
  constructor
  · rw [hbase ((collect (Except.ok devs) c0).counters), hbase c0]
    simp [CState.append]
  · refine ⟨(collectDevices ⟨⟨0, 0, 0⟩, [], 0⟩ devs).counters, ?_, ?_⟩
    · rw [hbase c0]
      simp [CState.append]
    · rw [hbase ((collect (Except.ok devs) c0).counters)]
      simp [CState.append]

/-- Claim C10: "carbonMonoxide" and "contact" both emit the metric
"contact_closed" but use different mappers: for every string,
"carbonMonoxide" never yields Invalid (0.0 for "clear", 1.0 for anything
else, including "open" and ""), while "contact" yields 0.0 only for
"open", 1.0 for "closed", and Invalid for every other string. -/
theorem carbonMonoxide_contact_same_metric_different_rules :
    (∀ s : String, classify "carbonMonoxide" (RawValue.str s) =
      Outcome.converted "smartthings_contact_closed" (if s = "clear" then 0 else 1)) ∧
    classify "carbonMonoxide" (RawValue.str "open") =
      Outcome.converted "smartthings_contact_closed" 1 ∧
    classify "carbonMonoxide" (RawValue.str "") =
      Outcome.converted "smartthings_contact_closed" 1 ∧
    classify "contact" (RawValue.str "open") =
      Outcome.converted "smartthings_contact_closed" 0 ∧
    (∀ s : String, s ≠ "open" → s ≠ "closed" →
      classify "contact" (RawValue.str s) =
        Outcome.invalid (MapError.invalidOption s "open" "closed")) := by
  refine ⟨?_, by decide, by decide, by decide, ?_⟩
  · intro s
    rw [classify_carbonMonoxide_bridge]
    by_cases hs : s = "clear" <;> simp [normalizeRaw, valueClear, hs]
  · intro s h1 h2
    rw [classify_contact_bridge]
    simp [normalizeRaw, valueOneOf, valOpenClosed, h1, h2]

/-- Witness for C10: the outside-the-pair hypotheses are discharged at the
string "half-open". -/
theorem carbonMonoxide_contact_witness :
    classify "contact" (RawValue.str "half-open") =
      Outcome.invalid (MapError.invalidOption "half-open" "open" "closed") :=
  carbonMonoxide_contact_same_metric_different_rules.2.2.2.2 "half-open"
    (by decide) (by decide)
